import Mathlib

/-!
Verification of the sync orchestration engine of garmin-health-sync.

Shallow embedding of:
 - the GarminConnectClient (session load, login, request, fetch operations)
   and syncGarminData from src/index.ts;
 - the sqlite persistence operations (INSERT OR REPLACE upserts, sync_log)
   from src/index.ts;
 - the SyncScheduler from src/unnamed/part_001 (scheduler.ts).

HTTP traffic is modelled by per-call responses supplied in a FetchPlan;
JavaScript exceptions become Except values; the mutable client object and
the database become explicitly threaded state.
-/

namespace GarminHealthSync

/-- An HTTP response as observed by GarminConnectClient.request: a numeric
status and a body already decoded from JSON (the source casts the decoded
body unchecked, so the body is typed per endpoint). -/
structure HttpResponse (α : Type) where
  status : Nat
  body : α
deriving DecidableEq

/-- Models the fetch Response.ok flag: status in the range 200-299. -/
def httpOk (s : Nat) : Bool := 200 ≤ s && s < 300

/-- The errors GarminConnectClient.request can throw: the Not authenticated
guard, Session expired on 401/403, and API error on any other non-ok status. -/
inductive GarminError
  | notAuthenticated
  | sessionExpired
  | apiError (status : Nat)
deriving DecidableEq

/-- The mutable fields of GarminConnectClient: sessionCookies and authed. -/
structure ClientState where
  sessionCookies : String
  authed : Bool
deriving DecidableEq

/-- GarminConnectClient.request (src/index.ts lines 214-237): throws
Not authenticated when the authed flag is down; on 401/403 clears the
authed flag and throws Session expired; on any other non-ok status throws
API error; otherwise returns the decoded body. -/
def request {α : Type} (st : ClientState) (resp : HttpResponse α) :
    ClientState × Except GarminError α :=
  if !st.authed then (st, .error .notAuthenticated)
  else if resp.status == 401 || resp.status == 403 then
    ({ st with authed := false }, .error .sessionExpired)
  else if !httpOk resp.status then (st, .error (.apiError resp.status))
  else (st, .ok resp.body)

/-- The try/catch-to-null wrapper shared by getActivityDetail,
getDailySummary, getHrvData, getSleepData, getBodyBatteryData and
getStressData: any error from request is swallowed and the call reports
absent, while state mutations made before the throw (the authed flag
cleared on 401/403) persist. -/
def tryRequest {α : Type} (st : ClientState) (resp : HttpResponse α) :
    ClientState × Option α :=
  match request st resp with
  | (st1, .ok v) => (st1, some v)
  | (st1, .error _) => (st1, none)

/-- Activity summary as returned by the activity list endpoint
(type GarminActivity in src/index.ts). Optional fields model properties
that may be undefined at runtime. -/
structure GarminActivity where
  activityId : Nat
  activityName : String
  startTimeLocal : String
  duration : Int
  distance : Option Int
  calories : Option Int
  activityTypeKey : Option String
deriving DecidableEq

/-- Activity detail payload (type GarminActivityDetail in src/index.ts). -/
structure GarminActivityDetail where
  activityId : Nat
  activityName : String
  description : Option String
  locationName : Option String
  averageHR : Option Int
  maxHR : Option Int
  averageSpeed : Option Int
  maxSpeed : Option Int
  elevationGain : Option Int
  elevationLoss : Option Int
deriving DecidableEq

/-- Daily summary payload (type DailySummary in src/index.ts);
bodyBatteryLastDayValue flattens the optional chain
summary.bodyBattery?.lastDayValue. -/
structure DailySummary where
  calendarDate : String
  steps : Option Int
  restingHeartRate : Option Int
  bodyBatteryLastDayValue : Option Int
  sleepTimeInSeconds : Option Int
  hrvStatus : Option String
deriving DecidableEq

/-- The dailySleepDTO record inside the sleep payload; sleepScoreValue
flattens dto.sleepScore?.value. -/
structure SleepDTO where
  sleepTimeSeconds : Option Int
  deepSleepSeconds : Option Int
  lightSleepSeconds : Option Int
  remSleepSeconds : Option Int
  awakeSleepSeconds : Option Int
  averageSpO2Value : Option Int
  averageRespirationValue : Option Int
  sleepScoreValue : Option Int
deriving DecidableEq

/-- Sleep payload (type SleepData in src/index.ts). -/
structure SleepData where
  dailySleepDTO : Option SleepDTO
deriving DecidableEq

/-- HRV payload: the sync only reads its status field. -/
structure HrvData where
  status : String
deriving DecidableEq

/-- Body battery payload: the sync only embeds it into rawJson, so the
body is kept abstract. -/
structure BodyBatteryData where
  raw : String
deriving DecidableEq

/-- Stress payload: the sync reads avgStressLevel. -/
structure StressData where
  avgStressLevel : Option Int
deriving DecidableEq

/-- Named fetch operations of the client facade. getActivities propagates
request errors to its caller (src/index.ts lines 239-242). -/
def getActivities (st : ClientState) (resp : HttpResponse (List GarminActivity)) :
    ClientState × Except GarminError (List GarminActivity) :=
  request st resp

/-- getActivityDetail wraps request in try/catch and reports absent on any
error (src/index.ts lines 244-251). -/
def getActivityDetail (st : ClientState) (resp : HttpResponse GarminActivityDetail) :
    ClientState × Option GarminActivityDetail :=
  tryRequest st resp

/-- getDailySummary wraps request in try/catch and reports absent on any
error (src/index.ts lines 253-260). -/
def getDailySummary (st : ClientState) (resp : HttpResponse DailySummary) :
    ClientState × Option DailySummary :=
  tryRequest st resp

/-- getHrvData, best-effort (src/index.ts lines 262-269). -/
def getHrvData (st : ClientState) (resp : HttpResponse HrvData) :
    ClientState × Option HrvData :=
  tryRequest st resp

/-- getSleepData, best-effort (src/index.ts lines 271-278). -/
def getSleepData (st : ClientState) (resp : HttpResponse SleepData) :
    ClientState × Option SleepData :=
  tryRequest st resp

/-- getBodyBatteryData, best-effort (src/index.ts lines 280-287). -/
def getBodyBatteryData (st : ClientState) (resp : HttpResponse BodyBatteryData) :
    ClientState × Option BodyBatteryData :=
  tryRequest st resp

/-- getStressData, best-effort (src/index.ts lines 289-296). -/
def getStressData (st : ClientState) (resp : HttpResponse StressData) :
    ClientState × Option StressData :=
  tryRequest st resp

/-! ## Persistence layer (sqlite tables in src/index.ts) -/

/-- The value stored in the meta table under key garmin_session, as seen by
JSON.parse inside loadSessionFromDb: either it parses to an object with a
cookies string and a numeric timestamp, or JSON.parse throws. -/
inductive StoredSession
  | parsed (cookies : String) (timestamp : Int)
  | unparseable (raw : String)
deriving DecidableEq

/-- A row of the activities table, with the columns written by the
insertActivity prepared statement (src/index.ts lines 318-346). rawJson
keeps the exact data that JSON.stringify would serialise. -/
structure ActivityRow where
  id : String
  provider : String
  startTime : String
  type : String
  name : String
  distanceMeters : Int
  durationSeconds : Int
  calories : Int
  averageHR : Option Int
  maxHR : Option Int
  averageSpeed : Option Int
  maxSpeed : Option Int
  elevationGain : Option Int
  elevationLoss : Option Int
  description : Option String
  locationName : Option String
  rawJson : GarminActivity × Option GarminActivityDetail
deriving DecidableEq

/-- A row of the daily_metrics table, with the columns written by the
insertDaily prepared statement (src/index.ts lines 352-390). -/
structure DailyRow where
  day : String
  steps : Int
  restingHeartRate : Option Int
  bodyBattery : Option Int
  sleepSeconds : Option Int
  sleepScore : Option Int
  deepSleepSeconds : Option Int
  lightSleepSeconds : Option Int
  remSleepSeconds : Option Int
  awakeSleepSeconds : Option Int
  avgSpO2 : Option Int
  avgRespiration : Option Int
  avgStressLevel : Option Int
  hrvStatus : Option String
  rawJson : DailySummary × Option HrvData × Option SleepData × Option BodyBatteryData × Option StressData
deriving DecidableEq

/-- A row of the sync_log table (src/index.ts lines 60-66). -/
structure SyncLogRow where
  id : Nat
  startedAt : String
  endedAt : Option String
  status : String
  details : String
deriving DecidableEq

/-- The sqlite database state owned by the service: the meta garmin_session
record, the two data tables, the append-only sync_log, and the
AUTOINCREMENT counter backing sync_log.id. -/
structure Db where
  metaGarminSession : Option StoredSession
  activities : List ActivityRow
  dailyMetrics : List DailyRow
  syncLog : List SyncLogRow
  nextLogId : Nat
deriving DecidableEq

/-- INSERT OR REPLACE keyed by a primary key: any existing row with the
same key is removed and the new full row is stored. -/
def upsertBy {ρ : Type} (key : ρ → String) (v : ρ) (t : List ρ) : List ρ :=
  t.filter (fun r => key r != key v) ++ [v]

/-- Models JavaScript x || d on strings: the empty string is falsy. -/
def jsOrString (o : Option String) (d : String) : String :=
  match o with
  | some s => if s == "" then d else s
  | none => d

/-- Models JavaScript x || d on numbers: 0 is falsy (and the default used
in the source is itself 0, so 0 maps to 0). -/
def jsOrInt (o : Option Int) (d : Int) : Int :=
  match o with
  | some n => if n == 0 then d else n
  | none => d

/-- The row built by the insertActivity.run call inside the activity loop
(src/index.ts lines 329-346), merging the summary with the best-effort
detail payload. -/
def activityRowOf (act : GarminActivity) (detail : Option GarminActivityDetail) : ActivityRow where
  id := toString act.activityId
  provider := "garmin"
  startTime := act.startTimeLocal
  type := jsOrString act.activityTypeKey "unknown"
  name := act.activityName
  distanceMeters := jsOrInt act.distance 0
  durationSeconds := act.duration
  calories := jsOrInt act.calories 0
  averageHR := detail.bind (fun d => d.averageHR)
  maxHR := detail.bind (fun d => d.maxHR)
  averageSpeed := detail.bind (fun d => d.averageSpeed)
  maxSpeed := detail.bind (fun d => d.maxSpeed)
  elevationGain := detail.bind (fun d => d.elevationGain)
  elevationLoss := detail.bind (fun d => d.elevationLoss)
  description := detail.bind (fun d => d.description)
  locationName := detail.bind (fun d => d.locationName)
  rawJson := (act, detail)

/-- The row built by the insertDaily.run call inside the day loop
(src/index.ts lines 372-390). The day key is summary.calendarDate || dateStr
(JavaScript ||, so an empty calendarDate falls back to dateStr); steps is
summary.steps ?? 0 (nullish coalescing). -/
def dailyRowOf (dateStr : String) (summary : DailySummary) (hrv : Option HrvData)
    (sleep : Option SleepData) (bodyBattery : Option BodyBatteryData)
    (stress : Option StressData) : DailyRow :=
  let dto := sleep.bind (fun s => s.dailySleepDTO)
  { day := jsOrString (some summary.calendarDate) dateStr
    steps := summary.steps.getD 0
    restingHeartRate := summary.restingHeartRate
    bodyBattery := summary.bodyBatteryLastDayValue
    sleepSeconds := summary.sleepTimeInSeconds
    sleepScore := dto.bind (fun d => d.sleepScoreValue)
    deepSleepSeconds := dto.bind (fun d => d.deepSleepSeconds)
    lightSleepSeconds := dto.bind (fun d => d.lightSleepSeconds)
    remSleepSeconds := dto.bind (fun d => d.remSleepSeconds)
    awakeSleepSeconds := dto.bind (fun d => d.awakeSleepSeconds)
    avgSpO2 := dto.bind (fun d => d.averageSpO2Value)
    avgRespiration := dto.bind (fun d => d.averageRespirationValue)
    avgStressLevel := stress.bind (fun s => s.avgStressLevel)
    hrvStatus := hrv.map (fun h => h.status)
    rawJson := (summary, hrv, sleep, bodyBattery, stress) }

/-- The INSERT OR REPLACE INTO activities statement, keyed by the id
primary key (src/index.ts lines 318-323). -/
def insertActivity (row : ActivityRow) (db : Db) : Db :=
  { db with activities := upsertBy ActivityRow.id row db.activities }

/-- The INSERT OR REPLACE INTO daily_metrics statement, keyed by the day
primary key (src/index.ts lines 352-356). -/
def insertDaily (row : DailyRow) (db : Db) : Db :=
  { db with dailyMetrics := upsertBy DailyRow.day row db.dailyMetrics }

/-- openSyncLog: the INSERT INTO sync_log of the POST /sync handler, which
opens a running record and yields its AUTOINCREMENT id
(src/index.ts lines 503-505). -/
def openSyncLog (startedAt : String) (db : Db) : Db × Nat :=
  ({ db with
      syncLog := db.syncLog ++
        [{ id := db.nextLogId, startedAt := startedAt, endedAt := none,
           status := "running", details := "Garmin sync started" }]
      nextLogId := db.nextLogId + 1 },
   db.nextLogId)

/-- closeSyncLog: the UPDATE sync_log SET endedAt, status, details WHERE id
statement of the POST /sync handler (src/index.ts lines 510 and 524). -/
def closeSyncLog (logId : Nat) (endedAt status details : String) (db : Db) : Db :=
  { db with
      syncLog := db.syncLog.map (fun r =>
        if r.id == logId then
          { r with endedAt := some endedAt, status := status, details := details }
        else r) }

/-! ## Session store and authentication -/

/-- Sessions expire after 7 days (src/index.ts line 202). -/
def sessionTTLms : Int := 7 * 24 * 60 * 60 * 1000

/-- GarminConnectClient.loadSessionFromDb (src/index.ts lines 196-212):
reads the meta garmin_session row; if it exists, parses, and its timestamp
is strictly within the 7-day TTL, installs the cookies on the client and
returns true; otherwise (missing row, unparseable JSON, or expired) returns
false. It performs no database write. -/
def loadSessionFromDb (now : Int) (db : Db) (st : ClientState) : Db × ClientState × Bool :=
  match db.metaGarminSession with
  | none => (db, st, false)
  | some (.unparseable _) => (db, st, false)
  | some (.parsed cookies ts) =>
      if now - ts < sessionTTLms then
        (db, { sessionCookies := cookies, authed := true }, true)
      else (db, st, false)

/-- Outcome of the multi-step login handshake
(src/index.ts lines 134-194), as determined by the external service. -/
inductive LoginOutcome
  | noTicket
  | noSessionCookie
  | transportError
  | success (cookies : String)
deriving DecidableEq

/-- GarminConnectClient.login: on success installs the session cookies,
raises the authed flag, stores the session with the current timestamp into
the meta table and returns true; every failure path (no ticket, no session
cookie from ticket validation, any thrown network error) returns false and
leaves client and database unchanged. -/
def login (now : Int) (outcome : LoginOutcome) (db : Db) (st : ClientState) :
    Db × ClientState × Bool :=
  match outcome with
  | .success cookies =>
      ({ db with metaGarminSession := some (.parsed cookies now) },
       { sessionCookies := cookies, authed := true }, true)
  | _ => (db, st, false)

/-! ## Sync orchestrator (syncGarminData, src/index.ts lines 301-396) -/

/-- The per-day responses the external service would give to the daily
summary fetch and the four Promise.all sub-fetches. -/
structure DayPlan where
  summary : HttpResponse DailySummary
  hrv : HttpResponse HrvData
  sleep : HttpResponse SleepData
  bodyBattery : HttpResponse BodyBatteryData
  stress : HttpResponse StressData

/-- All external-world inputs of one syncGarminData invocation: the login
handshake outcome, the response to the single activity-list fetch the code
performs plus the response a retried activity-list fetch would have
received (the source never issues that retry), the detail response for the
i-th activity, and the responses and the computed date string for day
index i of the 30-day window. -/
structure FetchPlan where
  loginOutcome : LoginOutcome
  activitiesFirst : HttpResponse (List GarminActivity)
  activitiesRetry : HttpResponse (List GarminActivity)
  detailResponse : Nat → HttpResponse GarminActivityDetail
  dayResponse : Nat → DayPlan
  dateStr : Nat → String

/-- Errors thrown by syncGarminData: the missing-credentials configuration
error, the failed-login error, and any error propagating out of the
mandatory getActivities fetch. -/
inductive SyncError
  | missingCredentials
  | authFailed
  | fetch (e : GarminError)
deriving DecidableEq

/-- The startup configuration (GARMIN_USERNAME / GARMIN_PASSWORD). -/
structure EnvConfig where
  garminUsername : String
  garminPassword : String
deriving DecidableEq

/-- Result of a syncGarminData invocation: final database and client
state, the returned counts or the thrown error, and how many times
login was called during the invocation. -/
structure SyncResult where
  db : Db
  client : ClientState
  result : Except SyncError (Nat × Nat)
  loginCalls : Nat

/-- The authentication preamble of syncGarminData (src/index.ts lines
302-311): try the stored session; if absent or invalid, fail fast when
credentials are not configured (empty strings are falsy), otherwise call
login once and fail when it reports false. Yields the login call count and
the error to throw, if any. -/
def ensureSession (env : EnvConfig) (now : Int) (plan : FetchPlan)
    (st : ClientState) (db : Db) : Db × ClientState × Nat × Option SyncError :=
  let L := loadSessionFromDb now db st
  if L.2.2 then (L.1, L.2.1, 0, none)
  else if env.garminUsername == "" || env.garminPassword == "" then
    (L.1, L.2.1, 0, some .missingCredentials)
  else
    let R := login now plan.loginOutcome L.1 L.2.1
    if R.2.2 then (R.1, R.2.1, 1, none)
    else (R.1, R.2.1, 1, some .authFailed)

/-- One iteration of the activity loop (src/index.ts lines 325-348):
best-effort detail fetch, then INSERT OR REPLACE of the merged row, then
activitiesSynced increment. -/
def syncActivity (resp : HttpResponse GarminActivityDetail) (act : GarminActivity)
    (st : ClientState) (db : Db) (count : Nat) : ClientState × Db × Nat :=
  let D := getActivityDetail st resp
  (D.1, insertActivity (activityRowOf act D.2) db, count + 1)

/-- The activity loop, consuming the detail response planned for each
activity position in order. -/
def syncActivitiesLoop (plan : FetchPlan) :
    List GarminActivity → Nat → ClientState → Db → Nat → ClientState × Db × Nat
  | [], _, st, db, n => (st, db, n)
  | act :: rest, i, st, db, n =>
      let R := syncActivity (plan.detailResponse i) act st db n
      syncActivitiesLoop plan rest (i + 1) R.1 R.2.1 R.2.2

/-- One iteration of the day loop (src/index.ts lines 358-393): fetch the
daily summary; when it is absent the day is skipped entirely (no sub-fetch,
no row, no count). When present, the four sub-fetches run via Promise.all:
each observes the authed flag as of the start of the batch, and the flag
ends up cleared when any of the four hit 401/403. The merged row is then
INSERT OR REPLACEd and daysSynced incremented. -/
def syncDay (dp : DayPlan) (dateStr : String) (st : ClientState) (db : Db)
    (daysSynced : Nat) : ClientState × Db × Nat :=
  let S := getDailySummary st dp.summary
  match S.2 with
  | none => (S.1, db, daysSynced)
  | some summary =>
      let h := getHrvData S.1 dp.hrv
      let sl := getSleepData S.1 dp.sleep
      let bb := getBodyBatteryData S.1 dp.bodyBattery
      let ss := getStressData S.1 dp.stress
      let st2 : ClientState :=
        { S.1 with authed := h.1.authed && sl.1.authed && bb.1.authed && ss.1.authed }
      let row := dailyRowOf dateStr summary h.2 sl.2 bb.2 ss.2
      (st2, insertDaily row db, daysSynced + 1)

/-- The 30-day trailing window loop, over day indices 0..29. -/
def syncDaysLoop (plan : FetchPlan) :
    List Nat → ClientState → Db → Nat → ClientState × Db × Nat
  | [], st, db, n => (st, db, n)
  | i :: rest, st, db, n =>
      let R := syncDay (plan.dayResponse i) (plan.dateStr i) st db n
      syncDaysLoop plan rest R.1 R.2.1 R.2.2

/-- syncGarminData (src/index.ts lines 301-396): ensure a session, fetch
the activity list (any error thrown there, including Session expired,
propagates and aborts the invocation with no retry), run the activity loop,
run the 30-day daily loop, and return the counts. -/
def syncGarminData (env : EnvConfig) (now : Int) (plan : FetchPlan)
    (st : ClientState) (db : Db) : SyncResult :=
  let A := ensureSession env now plan st db
  match A.2.2.2 with
  | some e => { db := A.1, client := A.2.1, result := .error e, loginCalls := A.2.2.1 }
  | none =>
      let G := getActivities A.2.1 plan.activitiesFirst
      match G.2 with
      | .error e =>
          { db := A.1, client := G.1, result := .error (.fetch e), loginCalls := A.2.2.1 }
      | .ok acts =>
          let L1 := syncActivitiesLoop plan acts 0 G.1 A.1 0
          let L2 := syncDaysLoop plan (List.range 30) L1.1 L1.2.1 0
          { db := L2.2.1, client := L2.1, result := .ok (L1.2.2, L2.2.2),
            loginCalls := A.2.2.1 }

/-- The details string written on success:
Synced N activities, M days (src/index.ts line 513). -/
def successDetails (nActs nDays : Nat) : String :=
  "Synced " ++ toString nActs ++ " activities, " ++ toString nDays ++ " days"

/-- The message of each error syncGarminData can throw, as written into the
sync_log details column. -/
def errorMessage : SyncError → String
  | .missingCredentials => "GARMIN_USERNAME and GARMIN_PASSWORD env vars required"
  | .authFailed => "Garmin authentication failed"
  | .fetch .notAuthenticated => "Not authenticated"
  | .fetch .sessionExpired => "Session expired"
  | .fetch (.apiError s) => "API error: " ++ toString s

/-- The POST /sync handler (src/index.ts lines 502-532): open a running
sync_log record, run syncGarminData, and close the record to success or
error with the end timestamp; returns the final database, client state and
HTTP status code. -/
def postSyncHandler (env : EnvConfig) (now : Int) (plan : FetchPlan)
    (startTime endTime : String) (st : ClientState) (db : Db) :
    Db × ClientState × Nat :=
  let O := openSyncLog startTime db
  let r := syncGarminData env now plan st O.1
  match r.result with
  | .ok counts =>
      (closeSyncLog O.2 endTime "success" (successDetails counts.1 counts.2) r.db,
       r.client, 200)
  | .error e =>
      (closeSyncLog O.2 endTime "error" (errorMessage e) r.db, r.client, 500)

/-! ## SyncScheduler (src/unnamed/part_001, scheduler.ts) -/

/-- Events emitted by the scheduler (EventEmitter emissions; sync:error
also reaches the onError callback). -/
inductive SchedEvent
  | started (intervalMs : Int)
  | stopped
  | syncStart
  | syncSuccess (timestamp : Int)
  | syncError
deriving DecidableEq

/-- The mutable fields of SyncScheduler. isRunning is the source field of
that name: it is raised by start and lowered by stop, meaning the scheduler
is enabled, not that a sync is executing. inFlight is not a source field:
it counts runSync invocations that have begun and not yet completed, making
concurrent executions observable in the model. -/
structure SchedulerState where
  intervalMs : Int
  timerSet : Bool
  isRunning : Bool
  lastSyncAt : Option Int
  nextSyncAt : Option Int
  inFlight : Nat
deriving DecidableEq

/-- A freshly constructed SyncScheduler with the given interval. -/
def SyncScheduler.new (intervalMs : Int) : SchedulerState :=
  { intervalMs := intervalMs, timerSet := false, isRunning := false,
    lastSyncAt := none, nextSyncAt := none, inFlight := 0 }

/-- SyncScheduler.scheduleNext (lines 76-81): when the scheduler is
enabled, set nextSyncAt to now + intervalMs and arm the timer; otherwise do
nothing. -/
def SyncScheduler.scheduleNext (now : Int) (s : SchedulerState) : SchedulerState :=
  if !s.isRunning then s
  else { s with nextSyncAt := some (now + s.intervalMs), timerSet := true }

/-- SyncScheduler.start (lines 30-37): no-op when already enabled;
otherwise raise isRunning, schedule the first run and emit started. -/
def SyncScheduler.start (now : Int) (s : SchedulerState) : SchedulerState × List SchedEvent :=
  if s.isRunning then (s, [])
  else
    (SyncScheduler.scheduleNext now { s with isRunning := true },
     [.started s.intervalMs])

/-- SyncScheduler.stop (lines 39-50): no-op when not enabled; otherwise
cancel the timer, lower isRunning, clear nextSyncAt and emit stopped. A
sync already executing is not interrupted (inFlight is untouched). -/
def SyncScheduler.stop (s : SchedulerState) : SchedulerState × List SchedEvent :=
  if !s.isRunning then (s, [])
  else ({ s with timerSet := false, isRunning := false, nextSyncAt := none }, [.stopped])

/-- The synchronous first phase of SyncScheduler.runSync (lines 83-88): return
without doing anything when the scheduler is not enabled; otherwise emit
sync:start and begin executing onSync. The only guard is the isRunning
enabled flag; nothing checks whether another run is already executing. -/
def SyncScheduler.runSyncBegin (s : SchedulerState) : SchedulerState × List SchedEvent :=
  if !s.isRunning then (s, [])
  else ({ s with inFlight := s.inFlight + 1 }, [.syncStart])

/-- The completion of a begun runSync call (lines 89-101): on success
record lastSyncAt and emit sync:success; on error emit sync:error (which
also reaches the onError callback) and leave lastSyncAt untouched; in both
cases the finally block runs scheduleNext. -/
def SyncScheduler.runSyncComplete (now : Int) (success : Bool) (s : SchedulerState) :
    SchedulerState × List SchedEvent :=
  let s1 := { s with inFlight := s.inFlight - 1 }
  if success then
    (SyncScheduler.scheduleNext now { s1 with lastSyncAt := some now }, [.syncSuccess now])
  else
    (SyncScheduler.scheduleNext now s1, [.syncError])

/-- SyncScheduler.triggerNow (lines 52-58): cancel a pending timer if any,
then call runSync. -/
def SyncScheduler.triggerNow (s : SchedulerState) : SchedulerState × List SchedEvent :=
  SyncScheduler.runSyncBegin (if s.timerSet then { s with timerSet := false } else s)

/-- The record returned by SyncScheduler.getStatus (lines 60-74). -/
structure SchedulerStatus where
  enabled : Bool
  intervalMs : Int
  lastSyncAt : Option Int
  nextSyncAt : Option Int
  isSyncing : Bool
deriving DecidableEq

/-- SyncScheduler.getStatus: reports the enabled flag, interval and run
timestamps; isSyncing is the hardcoded false of line 72. -/
def SyncScheduler.getStatus (s : SchedulerState) : SchedulerStatus :=
  { enabled := s.isRunning, intervalMs := s.intervalMs,
    lastSyncAt := s.lastSyncAt, nextSyncAt := s.nextSyncAt,
    isSyncing := false }

/-! ## Sample values used by witnesses and counterexamples -/

/-- An activity summary like the ones returned by the activity list. -/
def sampleActivity : GarminActivity :=
  ⟨101, "Morning Run", "2025-02-04T10:00:00", 1800, some 5000, some 350, some "running"⟩

/-- A detail payload for sampleActivity. -/
def sampleDetail : GarminActivityDetail :=
  ⟨101, "Morning Run", some "easy run", some "Riverside", some 145, some 165,
   some 3, some 5, some 10, some 12⟩

/-- A daily summary payload. -/
def sampleSummary : DailySummary :=
  ⟨"2025-02-04", some 10500, some 58, some 85, some 28800, some "balanced"⟩

/-- A sleep payload with a full dailySleepDTO. -/
def sampleSleep : SleepData :=
  ⟨some ⟨some 28800, some 7000, some 14000, some 5000, some 2800, some 95, some 14, some 85⟩⟩

/-- A day whose summary fetch yields 404 (absent) while every sub-fetch
would succeed with data. -/
def sampleDayPlanNoSummary : DayPlan :=
  { summary := ⟨404, sampleSummary⟩
    hrv := ⟨200, ⟨"balanced"⟩⟩
    sleep := ⟨200, sampleSleep⟩
    bodyBattery := ⟨200, ⟨"bb"⟩⟩
    stress := ⟨200, ⟨some 25⟩⟩ }

/-- A day whose fetches all succeed. -/
def sampleDayPlanOk : DayPlan :=
  { summary := ⟨200, sampleSummary⟩
    hrv := ⟨200, ⟨"balanced"⟩⟩
    sleep := ⟨200, sampleSleep⟩
    bodyBattery := ⟨200, ⟨"bb"⟩⟩
    stress := ⟨200, ⟨some 25⟩⟩ }

/-- An authenticated client. -/
def sampleClient : ClientState := ⟨"cookie", true⟩

/-- A database with no stored session and no rows. -/
def emptyDb : Db := ⟨none, [], [], [], 1⟩

/-- A database holding a session stored at timestamp 0. -/
def sampleDbValidSession : Db := ⟨some (.parsed "cookie" 0), [], [], [], 1⟩

/-- Configured credentials. -/
def sampleEnv : EnvConfig := ⟨"user", "password"⟩

/-- The scenario of the single-retry-on-expiry spec property: the first
activity-list fetch answers 401, a retried fetch would answer 200, and
re-authentication would succeed. -/
def samplePlanExpired : FetchPlan :=
  { loginOutcome := .success "fresh-cookies"
    activitiesFirst := ⟨401, [sampleActivity]⟩
    activitiesRetry := ⟨200, [sampleActivity]⟩
    detailResponse := fun _ => ⟨200, sampleDetail⟩
    dayResponse := fun _ => sampleDayPlanOk
    dateStr := fun _ => "2025-02-04" }

/-- The scheduler just after start (enabled, timer armed, nothing run). -/
def sampleSchedStarted : SchedulerState :=
  (SyncScheduler.start 0 (SyncScheduler.new 1000)).1

/-- The scheduler while its first triggered run is still executing. -/
def sampleSchedOneRun : SchedulerState :=
  (SyncScheduler.triggerNow sampleSchedStarted).1

/-! ## Helper lemmas -/

/-- INSERT OR REPLACE is idempotent for any key function. -/
theorem upsertBy_idem {ρ : Type} (key : ρ → String) (v : ρ) (t : List ρ) :
    upsertBy key v (upsertBy key v t) = upsertBy key v t := by
  unfold upsertBy
  rw [List.filter_append]
  simp [List.filter_filter]

/-- Equation for loadSessionFromDb when no session row is stored. -/
theorem loadSessionFromDb_none (now : Int) (db : Db) (st : ClientState)
    (hm : db.metaGarminSession = none) :
    loadSessionFromDb now db st = (db, st, false) := by
  unfold loadSessionFromDb; rw [hm]

/-- Equation for loadSessionFromDb when the stored value is unparseable. -/
theorem loadSessionFromDb_unparseable (now : Int) (db : Db) (st : ClientState)
    (raw : String) (hm : db.metaGarminSession = some (.unparseable raw)) :
    loadSessionFromDb now db st = (db, st, false) := by
  unfold loadSessionFromDb; rw [hm]

/-- Equation for loadSessionFromDb when the stored value parses. -/
theorem loadSessionFromDb_parsed (now : Int) (db : Db) (st : ClientState)
    (cookies : String) (ts : Int)
    (hm : db.metaGarminSession = some (.parsed cookies ts)) :
    loadSessionFromDb now db st =
      if now - ts < sessionTTLms then (db, ⟨cookies, true⟩, true)
      else (db, st, false) := by
  unfold loadSessionFromDb; rw [hm]

/-- loadSessionFromDb never writes to the database. -/
theorem loadSessionFromDb_fst (now : Int) (db : Db) (st : ClientState) :
    (loadSessionFromDb now db st).1 = db := by
  rcases hm : db.metaGarminSession with _ | s
  · rw [loadSessionFromDb_none now db st hm]
  · cases s with
    | parsed cookies ts =>
        rw [loadSessionFromDb_parsed now db st cookies ts hm]
        split <;> rfl
    | unparseable raw =>
        rw [loadSessionFromDb_unparseable now db st raw hm]

/-- When loadSessionFromDb reports true, the client it returns has the
authed flag raised. -/
theorem loadSessionFromDb_authed (now : Int) (db : Db) (st : ClientState)
    (h : (loadSessionFromDb now db st).2.2 = true) :
    (loadSessionFromDb now db st).2.1.authed = true := by
  rcases hm : db.metaGarminSession with _ | s
  · rw [loadSessionFromDb_none now db st hm] at h; simp at h
  · cases s with
    | parsed cookies ts =>
        rw [loadSessionFromDb_parsed now db st cookies ts hm] at h ⊢
        by_cases hc : now - ts < sessionTTLms
        · simp [hc]
        · simp [hc] at h
    | unparseable raw =>
        rw [loadSessionFromDb_unparseable now db st raw hm] at h; simp at h

/-- login touches only the meta record: sync_log and its id counter are
preserved. -/
theorem login_log (now : Int) (o : LoginOutcome) (db : Db) (st : ClientState) :
    (login now o db st).1.syncLog = db.syncLog
    ∧ (login now o db st).1.nextLogId = db.nextLogId := by
  cases o <;> exact ⟨rfl, rfl⟩

/-- The authentication preamble preserves sync_log and its id counter. -/
theorem ensureSession_log (env : EnvConfig) (now : Int) (plan : FetchPlan)
    (st : ClientState) (db : Db) :
    (ensureSession env now plan st db).1.syncLog = db.syncLog
    ∧ (ensureSession env now plan st db).1.nextLogId = db.nextLogId := by
  simp only [ensureSession]
  rw [loadSessionFromDb_fst]
  by_cases hb : (loadSessionFromDb now db st).2.2 = true
  · simp [hb]
  · have hlg := login_log now plan.loginOutcome db (loadSessionFromDb now db st).2.1
    by_cases hcred : (env.garminUsername == "" || env.garminPassword == "") = true
    · simp [hb, hcred]
    · by_cases hok : (login now plan.loginOutcome db (loadSessionFromDb now db st).2.1).2.2 = true
      · simp [hb, hcred, hok, hlg.1, hlg.2]
      · simp [hb, hcred, hok, hlg.1, hlg.2]

/-- The activity loop touches only the activities table. -/
theorem syncActivitiesLoop_log (plan : FetchPlan) (acts : List GarminActivity) :
    ∀ (i : Nat) (st : ClientState) (db : Db) (n : Nat),
      (syncActivitiesLoop plan acts i st db n).2.1.syncLog = db.syncLog
      ∧ (syncActivitiesLoop plan acts i st db n).2.1.nextLogId = db.nextLogId := by
  induction acts with
  | nil => intro i st db n; exact ⟨rfl, rfl⟩
  | cons a rest ih =>
      intro i st db n
      simp only [syncActivitiesLoop, syncActivity]
      exact ih (i + 1) _ _ _

/-- One day-loop step touches only the daily_metrics table. -/
theorem syncDay_log (dp : DayPlan) (dateStr : String) (st : ClientState)
    (db : Db) (n : Nat) :
    (syncDay dp dateStr st db n).2.1.syncLog = db.syncLog
    ∧ (syncDay dp dateStr st db n).2.1.nextLogId = db.nextLogId := by
  simp only [syncDay]
  cases hs : (getDailySummary st dp.summary).2 <;> exact ⟨rfl, rfl⟩

/-- The day loop touches only the daily_metrics table. -/
theorem syncDaysLoop_log (plan : FetchPlan) (days : List Nat) :
    ∀ (st : ClientState) (db : Db) (n : Nat),
      (syncDaysLoop plan days st db n).2.1.syncLog = db.syncLog
      ∧ (syncDaysLoop plan days st db n).2.1.nextLogId = db.nextLogId := by
  induction days with
  | nil => intro st db n; exact ⟨rfl, rfl⟩
  | cons i rest ih =>
      intro st db n
      simp only [syncDaysLoop]
      have h1 := syncDay_log (plan.dayResponse i) (plan.dateStr i) st db n
      have h2 := ih (syncDay (plan.dayResponse i) (plan.dateStr i) st db n).1
        (syncDay (plan.dayResponse i) (plan.dateStr i) st db n).2.1
        (syncDay (plan.dayResponse i) (plan.dateStr i) st db n).2.2
      exact ⟨h2.1.trans h1.1, h2.2.trans h1.2⟩

/-- A whole syncGarminData invocation never writes to sync_log and never
advances its id counter. -/
theorem syncGarminData_log (env : EnvConfig) (now : Int) (plan : FetchPlan)
    (st : ClientState) (db : Db) :
    (syncGarminData env now plan st db).db.syncLog = db.syncLog
    ∧ (syncGarminData env now plan st db).db.nextLogId = db.nextLogId := by
  simp only [syncGarminData]
  have h1 := ensureSession_log env now plan st db
  cases he : (ensureSession env now plan st db).2.2.2 with
  | some e => exact h1
  | none =>
      cases ha :
          (getActivities (ensureSession env now plan st db).2.1 plan.activitiesFirst).2 with
      | error e => exact h1
      | ok acts =>
          dsimp only
          have h2 := syncActivitiesLoop_log plan acts 0
            (getActivities (ensureSession env now plan st db).2.1 plan.activitiesFirst).1
            (ensureSession env now plan st db).1 0
          have h3 := syncDaysLoop_log plan (List.range 30)
            (syncActivitiesLoop plan acts 0
              (getActivities (ensureSession env now plan st db).2.1 plan.activitiesFirst).1
              (ensureSession env now plan st db).1 0).1
            (syncActivitiesLoop plan acts 0
              (getActivities (ensureSession env now plan st db).2.1 plan.activitiesFirst).1
              (ensureSession env now plan st db).1 0).2.1 0
          exact ⟨(h3.1.trans h2.1).trans h1.1, (h3.2.trans h2.2).trans h1.2⟩

/-- syncGarminData calls login exactly as often as its authentication
preamble does. -/
theorem syncGarminData_loginCalls (env : EnvConfig) (now : Int) (plan : FetchPlan)
    (st : ClientState) (db : Db) :
    (syncGarminData env now plan st db).loginCalls
      = (ensureSession env now plan st db).2.2.1 := by
  simp only [syncGarminData]
  cases he : (ensureSession env now plan st db).2.2.2 with
  | some e => rfl
  | none =>
      cases ha :
          (getActivities (ensureSession env now plan st db).2.1 plan.activitiesFirst).2 with
      | error e => rfl
      | ok acts => rfl

/-- Mapping the close update over rows whose ids all differ from the
target id leaves them unchanged. -/
theorem closeSyncLog_map_fresh (logId : Nat) (endedAt status details : String)
    (l : List SyncLogRow) (h : ∀ r ∈ l, r.id ≠ logId) :
    l.map (fun r =>
      if r.id == logId then
        { r with endedAt := some endedAt, status := status, details := details }
      else r) = l := by
  induction l with
  | nil => rfl
  | cons a t ih =>
      have ha : (a.id == logId) = false := by
        simp only [beq_eq_false_iff_ne, ne_eq]
        exact h a (List.mem_cons_self a t)
      simp only [List.map_cons, ha, if_neg]
      rw [ih (fun r hr => h r (List.mem_cons_of_mem a hr))]
      simp [ha]

/-! ## Claims -/

/-- Claim C3 (confirmed): for every stored session, loadSessionFromDb
returns the session exactly when now - createdAt < 7 days and reports
absent otherwise; in particular a session created 7 days minus 1 second ago
is returned as valid, and one created 7 days plus 1 second ago is reported
absent. -/
theorem C3_theorem (now ts : Int) (cookies : String) (st : ClientState)
    (acts : List ActivityRow) (daily : List DailyRow) (logs : List SyncLogRow)
    (nid : Nat) :
    ((loadSessionFromDb now ⟨some (.parsed cookies ts), acts, daily, logs, nid⟩ st).2.2 = true
       ↔ now - ts < sessionTTLms)
    ∧ (loadSessionFromDb now ⟨some (.parsed cookies ts), acts, daily, logs, nid⟩ st).2.1
        = (if now - ts < sessionTTLms then ⟨cookies, true⟩ else st)
    ∧ (loadSessionFromDb (ts + sessionTTLms - 1000)
         ⟨some (.parsed cookies ts), acts, daily, logs, nid⟩ st).2.2 = true
    ∧ (loadSessionFromDb (ts + sessionTTLms + 1000)
         ⟨some (.parsed cookies ts), acts, daily, logs, nid⟩ st).2.2 = false := by
  have he : ∀ n : Int,
      loadSessionFromDb n (⟨some (.parsed cookies ts), acts, daily, logs, nid⟩ : Db) st
        = if n - ts < sessionTTLms
          then ((⟨some (.parsed cookies ts), acts, daily, logs, nid⟩ : Db), ⟨cookies, true⟩, true)
          else ((⟨some (.parsed cookies ts), acts, daily, logs, nid⟩ : Db), st, false) :=
    fun n => loadSessionFromDb_parsed n _ st cookies ts rfl
  refine ⟨?_, ?_, ?_, ?_⟩
  · rw [he now]
    by_cases hc : now - ts < sessionTTLms <;> simp [hc]
  · rw [he now]
    by_cases hc : now - ts < sessionTTLms <;> simp [hc]
  · rw [he (ts + sessionTTLms - 1000)]
    have hc : ts + sessionTTLms - 1000 - ts < sessionTTLms := by omega
    simp [hc]
  · rw [he (ts + sessionTTLms + 1000)]
    have hc : ¬(ts + sessionTTLms + 1000 - ts < sessionTTLms) := by omega
    simp [hc]

/-- Claim C10 (confirmed): when the stored session value does not parse as
JSON, loadSessionFromDb reports absent (false), leaves the database and the
client untouched, and the caller syncGarminData then falls through to
re-authentication (login is called once when credentials are configured). -/
theorem C10_theorem (now : Int) (raw : String) (st : ClientState) (plan : FetchPlan)
    (acts : List ActivityRow) (daily : List DailyRow) (logs : List SyncLogRow)
    (nid : Nat) :
    loadSessionFromDb now ⟨some (.unparseable raw), acts, daily, logs, nid⟩ st
      = (⟨some (.unparseable raw), acts, daily, logs, nid⟩, st, false)
    ∧ (syncGarminData ⟨"user", "password"⟩ now plan st
         ⟨some (.unparseable raw), acts, daily, logs, nid⟩).loginCalls = 1 := by
  have h0 :
      loadSessionFromDb now (⟨some (.unparseable raw), acts, daily, logs, nid⟩ : Db) st
        = (⟨some (.unparseable raw), acts, daily, logs, nid⟩, st, false) :=
    loadSessionFromDb_unparseable now _ st raw rfl
  refine ⟨h0, ?_⟩
  rw [syncGarminData_loginCalls]
  simp only [ensureSession, h0]
  have hcred : ((("user" : String) == "") || (("password" : String) == "")) = false := rfl
  by_cases hok :
      (login now plan.loginOutcome ⟨some (.unparseable raw), acts, daily, logs, nid⟩ st).2.2
        = true <;>
    simp [hcred, hok]

/-- Claim C5 (confirmed): the INSERT OR REPLACE upserts for activities
(keyed by id) and for daily metrics (keyed by day) are idempotent: applying
the same record twice yields a stored table state identical to applying it
once. -/
theorem C5_theorem (arow : ActivityRow) (drow : DailyRow) (db : Db) :
    insertActivity arow (insertActivity arow db) = insertActivity arow db
    ∧ insertDaily drow (insertDaily drow db) = insertDaily drow db := by
  constructor
  · simp only [insertActivity]
    rw [upsertBy_idem]
  · simp only [insertDaily]
    rw [upsertBy_idem]

/-- Claim C4 (confirmed): within the daily window loop, when the daily
summary fetch reports absent, that day writes no daily_metrics row and does
not count towards daysSynced, whatever the sub-fetch responses would have
returned. -/
theorem C4_theorem (dp : DayPlan) (dateStr : String) (st : ClientState) (db : Db)
    (n : Nat) (h : (getDailySummary st dp.summary).2 = none) :
    syncDay dp dateStr st db n = ((getDailySummary st dp.summary).1, db, n) := by
  simp only [syncDay, h]

/-- Claim C4 witness: a concrete day whose summary fetch answers 404 while
the HRV, sleep, body battery and stress fetches would all answer 200 with
data; the day is skipped and the database is untouched. -/
theorem C4_witness :
    (getDailySummary sampleClient sampleDayPlanNoSummary.summary).2 = none
    ∧ syncDay sampleDayPlanNoSummary "2025-02-04" sampleClient emptyDb 0
        = ((getDailySummary sampleClient sampleDayPlanNoSummary.summary).1, emptyDb, 0) :=
  ⟨rfl, C4_theorem sampleDayPlanNoSummary "2025-02-04" sampleClient emptyDb 0 rfl⟩

/-- Claim C2 counterexample: start the scheduler and trigger a run; while
that run is still executing (inFlight = 1), a second triggerNow begins a
second concurrent run (sync:start emitted, inFlight = 2) instead of being a
no-op. -/
theorem C2_counterexample :
    sampleSchedOneRun.inFlight = 1
    ∧ (SyncScheduler.triggerNow sampleSchedOneRun).1.inFlight = 2
    ∧ (SyncScheduler.triggerNow sampleSchedOneRun).2 = [SchedEvent.syncStart] :=
  ⟨rfl, rfl, rfl⟩

/-- Claim C2 (corrected): triggerNow does not check for an in-flight run:
it cancels any pending timer and begins a new run whenever the scheduler is
started (its only guard is the isRunning enabled flag), so a manual trigger
during an executing run starts a second concurrent run; the trigger is a
no-op only when the scheduler is stopped. -/
theorem C2_theorem (s : SchedulerState) :
    (s.isRunning = true →
      SyncScheduler.triggerNow s
        = ({ s with timerSet := false, inFlight := s.inFlight + 1 },
           [SchedEvent.syncStart]))
    ∧ (s.isRunning = false →
      SyncScheduler.triggerNow s = ({ s with timerSet := false }, [])) := by
  rcases s with ⟨i, t, run, l, nx, f⟩
  constructor <;> intro h <;> subst h <;> cases t <;>
    simp [SyncScheduler.triggerNow, SyncScheduler.runSyncBegin]

/-- Claim C2 witness: applied to the started scheduler with one run in
flight. -/
theorem C2_witness :
    sampleSchedOneRun.isRunning = true
    ∧ SyncScheduler.triggerNow sampleSchedOneRun
        = ({ sampleSchedOneRun with
             timerSet := false
             inFlight := sampleSchedOneRun.inFlight + 1 },
           [SchedEvent.syncStart]) :=
  ⟨rfl, (C2_theorem sampleSchedOneRun).1 rfl⟩

/-- Claim C6 (confirmed): when a run completes with an error on a started
scheduler, the schedule continues: nextSyncAt is set to now + interval, the
timer is re-armed, the scheduler stays enabled, and the error observers are
notified. -/
theorem C6_theorem (s : SchedulerState) (now : Int) (h : s.isRunning = true) :
    (SyncScheduler.runSyncComplete now false s).1.isRunning = true
    ∧ (SyncScheduler.runSyncComplete now false s).1.nextSyncAt = some (now + s.intervalMs)
    ∧ (SyncScheduler.runSyncComplete now false s).1.timerSet = true
    ∧ (SyncScheduler.runSyncComplete now false s).2 = [SchedEvent.syncError] := by
  simp [SyncScheduler.runSyncComplete, SyncScheduler.scheduleNext, h]

/-- Claim C6 witness: a failing run on the started scheduler still
schedules the next run at 7 + 1000. -/
theorem C6_witness :
    sampleSchedOneRun.isRunning = true
    ∧ ((SyncScheduler.runSyncComplete 7 false sampleSchedOneRun).1.isRunning = true
       ∧ (SyncScheduler.runSyncComplete 7 false sampleSchedOneRun).1.nextSyncAt
           = some (7 + sampleSchedOneRun.intervalMs)
       ∧ (SyncScheduler.runSyncComplete 7 false sampleSchedOneRun).1.timerSet = true
       ∧ (SyncScheduler.runSyncComplete 7 false sampleSchedOneRun).2
           = [SchedEvent.syncError]) :=
  ⟨rfl, C6_theorem sampleSchedOneRun 7 rfl⟩

/-- Claim C8 counterexample: a started scheduler whose triggered run fails
at time 5 does not record the completion time: lastSyncAt stays none (also
as reported by getStatus), not some 5. -/
theorem C8_counterexample :
    (SyncScheduler.runSyncComplete 5 false sampleSchedOneRun).1.lastSyncAt = none
    ∧ (SyncScheduler.getStatus
        (SyncScheduler.runSyncComplete 5 false sampleSchedOneRun).1).lastSyncAt = none
    ∧ ¬ ((SyncScheduler.runSyncComplete 5 false sampleSchedOneRun).1.lastSyncAt
          = some 5) :=
  ⟨rfl, rfl, by decide⟩

/-- Claim C8 (corrected): on completion the scheduler records lastSyncAt
(observable via getStatus) only when the run succeeded; a failed run leaves
lastSyncAt at its previous value, while observers are still notified and,
on a started scheduler, the next run is still scheduled. -/
theorem C8_theorem (s : SchedulerState) (now : Int) :
    ((SyncScheduler.runSyncComplete now true s).1.lastSyncAt = some now
     ∧ (SyncScheduler.getStatus (SyncScheduler.runSyncComplete now true s).1).lastSyncAt
         = some now
     ∧ (SyncScheduler.runSyncComplete now true s).2 = [SchedEvent.syncSuccess now])
    ∧ ((SyncScheduler.runSyncComplete now false s).1.lastSyncAt = s.lastSyncAt
       ∧ (SyncScheduler.runSyncComplete now false s).2 = [SchedEvent.syncError])
    ∧ (s.isRunning = true →
        (SyncScheduler.runSyncComplete now false s).1.nextSyncAt
          = some (now + s.intervalMs)) := by
  refine ⟨?_, ?_, ?_⟩
  · by_cases h : s.isRunning = true <;>
      simp [SyncScheduler.runSyncComplete, SyncScheduler.scheduleNext,
            SyncScheduler.getStatus, h]
  · by_cases h : s.isRunning = true <;>
      simp [SyncScheduler.runSyncComplete, SyncScheduler.scheduleNext, h]
  · intro h
    simp [SyncScheduler.runSyncComplete, SyncScheduler.scheduleNext, h]

/-- Claim C8 witness: instantiated on the started scheduler with a run in
flight, completing at time 9. -/
theorem C8_witness :
    ((SyncScheduler.runSyncComplete 9 true sampleSchedOneRun).1.lastSyncAt = some 9
     ∧ (SyncScheduler.getStatus
          (SyncScheduler.runSyncComplete 9 true sampleSchedOneRun).1).lastSyncAt = some 9
     ∧ (SyncScheduler.runSyncComplete 9 true sampleSchedOneRun).2
         = [SchedEvent.syncSuccess 9])
    ∧ ((SyncScheduler.runSyncComplete 9 false sampleSchedOneRun).1.lastSyncAt
         = sampleSchedOneRun.lastSyncAt
       ∧ (SyncScheduler.runSyncComplete 9 false sampleSchedOneRun).2
           = [SchedEvent.syncError])
    ∧ (sampleSchedOneRun.isRunning = true
       ∧ (SyncScheduler.runSyncComplete 9 false sampleSchedOneRun).1.nextSyncAt
           = some (9 + sampleSchedOneRun.intervalMs)) :=
  ⟨(C8_theorem sampleSchedOneRun 9).1, (C8_theorem sampleSchedOneRun 9).2.1,
   rfl, (C8_theorem sampleSchedOneRun 9).2.2 rfl⟩

/-- Claim C9 counterexample: a daily-summary fetch that receives HTTP 401
reports the value as absent to its caller (the SessionExpired error is
swallowed by its try/catch), rather than raising SessionExpired. -/
theorem C9_counterexample :
    getDailySummary ⟨"cookie", true⟩ ⟨401, sampleSummary⟩ = (⟨"cookie", false⟩, none) :=
  rfl

/-- Claim C9 (corrected): on HTTP 401/403 the shared request helper raises
SessionExpired (distinct from the generic API error) and clears the authed
flag; getActivities propagates that error to its caller, but the six
wrapped fetch operations (activity detail, daily summary, HRV, sleep, body
battery, stress) catch it and report absent instead, keeping only the
cleared authed flag. -/
theorem C9_theorem (st : ClientState) (hauth : st.authed = true)
    (status : Nat) (hs : status = 401 ∨ status = 403)
    (al : List GarminActivity) (d : GarminActivityDetail) (ds : DailySummary)
    (hv : HrvData) (sl : SleepData) (bb : BodyBatteryData) (ss : StressData) :
    getActivities st ⟨status, al⟩
      = ({ st with authed := false }, .error .sessionExpired)
    ∧ getActivityDetail st ⟨status, d⟩ = ({ st with authed := false }, none)
    ∧ getDailySummary st ⟨status, ds⟩ = ({ st with authed := false }, none)
    ∧ getHrvData st ⟨status, hv⟩ = ({ st with authed := false }, none)
    ∧ getSleepData st ⟨status, sl⟩ = ({ st with authed := false }, none)
    ∧ getBodyBatteryData st ⟨status, bb⟩ = ({ st with authed := false }, none)
    ∧ getStressData st ⟨status, ss⟩ = ({ st with authed := false }, none) := by
  rcases hs with h | h <;> subst h <;>
    refine ⟨?_, ?_, ?_, ?_, ?_, ?_, ?_⟩ <;>
    simp [getActivities, getActivityDetail, getDailySummary, getHrvData,
          getSleepData, getBodyBatteryData, getStressData, tryRequest, request, hauth]

/-- Claim C9 witness: a 403 on every fetch operation of an authenticated
client. -/
theorem C9_witness :
    sampleClient.authed = true
    ∧ ((403 : Nat) = 401 ∨ (403 : Nat) = 403)
    ∧ (getActivities sampleClient ⟨403, []⟩
         = ({ sampleClient with authed := false }, .error .sessionExpired)
       ∧ getActivityDetail sampleClient ⟨403, sampleDetail⟩
           = ({ sampleClient with authed := false }, none)
       ∧ getDailySummary sampleClient ⟨403, sampleSummary⟩
           = ({ sampleClient with authed := false }, none)
       ∧ getHrvData sampleClient ⟨403, ⟨"balanced"⟩⟩
           = ({ sampleClient with authed := false }, none)
       ∧ getSleepData sampleClient ⟨403, sampleSleep⟩
           = ({ sampleClient with authed := false }, none)
       ∧ getBodyBatteryData sampleClient ⟨403, ⟨"bb"⟩⟩
           = ({ sampleClient with authed := false }, none)
       ∧ getStressData sampleClient ⟨403, ⟨some 25⟩⟩
           = ({ sampleClient with authed := false }, none)) :=
  ⟨rfl, Or.inr rfl,
   C9_theorem sampleClient rfl 403 (Or.inr rfl) [] sampleDetail sampleSummary
     ⟨"balanced"⟩ sampleSleep ⟨"bb"⟩ ⟨some 25⟩⟩

/-- Claim C1 counterexample: the exact scenario of the claim made
concrete - a stored valid session, an activity-list fetch answering 401
(SessionExpired) whose retry would answer 200, and a login handshake that
would succeed - yet syncGarminData aborts with the SessionExpired error
and performs zero re-authentications instead of completing successfully
after one. -/
theorem C1_counterexample :
    httpOk samplePlanExpired.activitiesRetry.status = true
    ∧ samplePlanExpired.loginOutcome = .success "fresh-cookies"
    ∧ (syncGarminData sampleEnv 0 samplePlanExpired ⟨"", false⟩ sampleDbValidSession).result
        = .error (.fetch .sessionExpired)
    ∧ (syncGarminData sampleEnv 0 samplePlanExpired ⟨"", false⟩ sampleDbValidSession).loginCalls
        = 0 :=
  ⟨rfl, rfl, rfl, rfl⟩

/-- Claim C1 (corrected): when the stored session is valid and the
mandatory activity-list fetch raises SessionExpired, syncGarminData aborts
immediately with that error on the first SessionExpired: it performs no
re-authentication and no retry within the invocation, leaves the database
unchanged, and only clears the in-memory authed flag (so the next
invocation re-authenticates). -/
theorem C1_theorem (env : EnvConfig) (now : Int) (plan : FetchPlan)
    (st : ClientState) (db : Db)
    (hvalid : (loadSessionFromDb now db st).2.2 = true)
    (h401 : plan.activitiesFirst.status = 401 ∨ plan.activitiesFirst.status = 403) :
    (syncGarminData env now plan st db).result = .error (.fetch .sessionExpired)
    ∧ (syncGarminData env now plan st db).loginCalls = 0
    ∧ (syncGarminData env now plan st db).db = db
    ∧ (syncGarminData env now plan st db).client.authed = false := by
  have hE : ensureSession env now plan st db
      = (db, (loadSessionFromDb now db st).2.1, 0, none) := by
    simp only [ensureSession, hvalid, if_true]
    rw [loadSessionFromDb_fst]
  have hau := loadSessionFromDb_authed now db st hvalid
  have hG : getActivities (loadSessionFromDb now db st).2.1 plan.activitiesFirst
      = ({ (loadSessionFromDb now db st).2.1 with authed := false },
         .error .sessionExpired) := by
    rcases h401 with h | h <;>
      simp [getActivities, request, hau, h]
  simp only [syncGarminData, hE]
  simp [hG]

/-- Claim C1 witness: the concrete expired-session scenario. -/
theorem C1_witness :
    (loadSessionFromDb 0 sampleDbValidSession ⟨"", false⟩).2.2 = true
    ∧ (samplePlanExpired.activitiesFirst.status = 401
       ∨ samplePlanExpired.activitiesFirst.status = 403)
    ∧ ((syncGarminData sampleEnv 0 samplePlanExpired ⟨"", false⟩ sampleDbValidSession).result
         = .error (.fetch .sessionExpired)
       ∧ (syncGarminData sampleEnv 0 samplePlanExpired ⟨"", false⟩ sampleDbValidSession).loginCalls
           = 0
       ∧ (syncGarminData sampleEnv 0 samplePlanExpired ⟨"", false⟩ sampleDbValidSession).db
           = sampleDbValidSession
       ∧ (syncGarminData sampleEnv 0 samplePlanExpired ⟨"", false⟩ sampleDbValidSession).client.authed
           = false) :=
  ⟨rfl, Or.inl rfl,
   C1_theorem sampleEnv 0 samplePlanExpired ⟨"", false⟩ sampleDbValidSession rfl (Or.inl rfl)⟩

/-- Claim C7 (confirmed): the POST /sync handler opens exactly one running
sync_log record at the start of the invocation, and by the end of the
invocation that same record - and nothing else - has been closed with
status success or error and a non-null endedAt; it is never left open. -/
theorem C7_theorem (env : EnvConfig) (now : Int) (plan : FetchPlan)
    (startTime endTime : String) (st : ClientState) (db : Db)
    (hfresh : ∀ r ∈ db.syncLog, r.id < db.nextLogId) :
    (openSyncLog startTime db).1.syncLog
      = db.syncLog
        ++ [{ id := db.nextLogId, startedAt := startTime, endedAt := none,
              status := "running", details := "Garmin sync started" }]
    ∧ ∃ status details : String,
        (status = "success" ∨ status = "error")
        ∧ (postSyncHandler env now plan startTime endTime st db).1.syncLog
            = db.syncLog
              ++ [{ id := db.nextLogId, startedAt := startTime,
                    endedAt := some endTime, status := status, details := details }] := by
  refine ⟨rfl, ?_⟩
  have hne : ∀ r ∈ db.syncLog, r.id ≠ db.nextLogId :=
    fun r hr => Nat.ne_of_lt (hfresh r hr)
  have hlog := syncGarminData_log env now plan st (openSyncLog startTime db).1
  simp only [postSyncHandler]
  cases hr : (syncGarminData env now plan st (openSyncLog startTime db).1).result with
  | ok counts =>
      refine ⟨"success", successDetails counts.1 counts.2, Or.inl rfl, ?_⟩
      simp only [closeSyncLog, hlog.1]
      show ((openSyncLog startTime db).1.syncLog.map _) = _
      rw [show (openSyncLog startTime db).1.syncLog
            = db.syncLog
              ++ [{ id := db.nextLogId, startedAt := startTime, endedAt := none,
                    status := "running", details := "Garmin sync started" }] from rfl]
      rw [show (openSyncLog startTime db).2 = db.nextLogId from rfl]
      rw [List.map_append]
      rw [closeSyncLog_map_fresh db.nextLogId endTime "success"
            (successDetails counts.1 counts.2) db.syncLog hne]
      simp
  | error e =>
      refine ⟨"error", errorMessage e, Or.inr rfl, ?_⟩
      simp only [closeSyncLog, hlog.1]
      show ((openSyncLog startTime db).1.syncLog.map _) = _
      rw [show (openSyncLog startTime db).1.syncLog
            = db.syncLog
              ++ [{ id := db.nextLogId, startedAt := startTime, endedAt := none,
                    status := "running", details := "Garmin sync started" }] from rfl]
      rw [show (openSyncLog startTime db).2 = db.nextLogId from rfl]
      rw [List.map_append]
      rw [closeSyncLog_map_fresh db.nextLogId endTime "error"
            (errorMessage e) db.syncLog hne]
      simp

/-- Claim C7 witness: a concrete invocation on the empty database. -/
theorem C7_witness :
    (∀ r ∈ emptyDb.syncLog, r.id < emptyDb.nextLogId)
    ∧ ((openSyncLog "t0" emptyDb).1.syncLog
        = emptyDb.syncLog
          ++ [{ id := emptyDb.nextLogId, startedAt := "t0", endedAt := none,
                status := "running", details := "Garmin sync started" }]
       ∧ ∃ status details : String,
          (status = "success" ∨ status = "error")
          ∧ (postSyncHandler sampleEnv 0 samplePlanExpired "t0" "t1" ⟨"", false⟩ emptyDb).1.syncLog
              = emptyDb.syncLog
                ++ [{ id := emptyDb.nextLogId, startedAt := "t0",
                      endedAt := some "t1", status := status, details := details }]) :=
  ⟨fun r hr => absurd hr (by simp [emptyDb]),
   C7_theorem sampleEnv 0 samplePlanExpired "t0" "t1" ⟨"", false⟩ emptyDb
     (fun r hr => absurd hr (by simp [emptyDb]))⟩

end GarminHealthSync
